import Mathlib

set_option autoImplicit false
set_option maxHeartbeats 1000000

/-
Shallow embedding of the generate_thots orchestration pipeline of
src/agent/whisper/app.py. Python strings are Lean Strings (lists of
characters), the sequence-to-sequence generation service together with
tokenizer decoding is an oracle from requests to optional decoded strings
(none modelling an upstream generation failure), and Python exceptions are
an explicit error type threaded through Except. Each pipeline step records
the generation request it issues, so that call order and call parameters
are observable.
-/

namespace Scribepod

/-- Errors a pipeline step can raise: a raw Python IndexError from
out-of-range list indexing, a distinct malformed-output error (declared so
that the specification claim about it can be stated; the code never raises
it), and an upstream failure of the generation service itself. -/
inductive PyErr where
  | indexError
  | malformedOutput
  | upstreamError
deriving DecidableEq

/-- Single-quote character as a one-character string, used to assemble the
prompt literals of the source that contain apostrophes. -/
def sq : String := String.mk [Char.ofNat 39]

/-- Python str.split for a non-empty separator, on character lists. The
fuel argument only bounds the recursion depth; any fuel of at least the
length of the list yields the exact Python behaviour, and the correctness
lemmas below hold for every fuel. -/
def splitLF (sep : List Char) : Nat → List Char → List (List Char)
  | _, [] => [[]]
  | 0, l => [l]
  | fuel + 1, c :: cs =>
    if sep.isPrefixOf (c :: cs) && !sep.isEmpty then
      [] :: splitLF sep fuel ((c :: cs).drop sep.length)
    else
      match splitLF sep fuel cs with
      | [] => [[c]]
      | p :: ps => (c :: p) :: ps

/-- Whether sep occurs as a contiguous run inside the character list, the
Python membership test sep in s. -/
def containsSub (sep : List Char) : List Char → Bool
  | [] => sep.isEmpty
  | c :: cs => sep.isPrefixOf (c :: cs) || containsSub sep cs

/-- Python s.split(sep) on strings, for a non-empty separator. -/
def pySplit (s sep : String) : List String :=
  (splitLF sep.data (s.data.length + 1) s.data).map String.mk

/-- Python substring containment sub in s. -/
def containsSubStr (s sub : String) : Bool :=
  containsSub sub.data s.data

/-- The output parser used by every pipeline step: the source expression
tokenizer.decode(outputs[0]).split(padding marker)[1].split(closing
marker)[0], where an out-of-range index raises a raw IndexError. -/
def parseDecoded (raw : String) : Except PyErr String :=
  match (pySplit raw "<pad>")[1]? with
  | none => .error .indexError
  | some s =>
    match (pySplit s "</s")[0]? with
    | none => .error .indexError
    | some t => .ok t

/-- Python str.lower on a single character, for the ASCII range the
pipeline strings inhabit. -/
def pyLowerChar (c : Char) : Char :=
  if 65 ≤ c.toNat && c.toNat ≤ 90 then Char.ofNat (c.toNat + 32) else c

/-- Python str.lower. -/
def pyLower (s : String) : String := String.mk (s.data.map pyLowerChar)

/-- Python whitespace, as stripped by str.strip with no argument. -/
def pyIsSpace (c : Char) : Bool :=
  c == ' ' || c == '\t' || c == '\n' || c == '\r' || c == '\x0b' || c == '\x0c'

/-- Python str.strip with no argument: drop leading and trailing
whitespace. -/
def pyStrip (s : String) : String :=
  String.mk (((s.data.dropWhile pyIsSpace).reverse.dropWhile pyIsSpace).reverse)

/-- The prompt builder of the source, the Python expression
newline.join(fragments): fragments joined in order with single newline
separators. -/
def joinLines : List String → String
  | [] => ""
  | [x] => x
  | x :: y :: t => x ++ "\n" ++ joinLines (y :: t)

/-- A call to the generation service: the prompt text handed to the
tokenizer, and the max_length and temperature arguments of
text_model.generate. -/
structure GenRequest where
  input_text : String
  max_length : Nat
  temperature : ℚ
deriving DecidableEq

/-- Issue one generation call and parse its decoded output: a generation
failure or a parsing failure surfaces as an error. -/
def runGen (gen : GenRequest → Option String) (req : GenRequest) : Except PyErr String :=
  match gen req with
  | none => .error .upstreamError
  | some raw => parseDecoded raw

def STATE_TEMPERATURE : ℚ := 1.0

def PERSON_INTENT_TEMPERATURE : ℚ := 1.0

def PERSON_INFERENCE_TEMPERATURE : ℚ := 1.0

def person_speech : List String :=
  ["person: Hey, have you heard about the latest advancements in space technology?",
   "person: I" ++ sq ++ "m really interested in the concept of colonizing Mars.",
   "person: Did you know that SpaceX has plans to send humans to Mars as soon as 2024?"]

def question_intent : List String :=
  ["Q: What is the intent of the person speaking?"]

def question_inference : List String :=
  ["Q: what kind of person is the person speaking?"]

def example_1_inferences : List String :=
  person_speech ++ question_inference ++ ["Answer: This person is: a scientist"]

def example_1_intent : List String :=
  person_speech ++ question_intent ++
    ["Answer: The intent of the person is: to start conversation about space exploration and colonizing Mars"]

/-- The request issued by get_persons_intent. -/
def intent_req (question_speech : List String) : GenRequest :=
  { input_text := joinLines (example_1_intent ++ ["\nEXAMPLE 2:"] ++ question_speech ++
      question_intent ++ ["Answer: The intent of this person is:"]),
    max_length := 2000, temperature := PERSON_INTENT_TEMPERATURE }

/-- Pipeline step 1, intent inference. -/
def get_persons_intent (gen : GenRequest → Option String)
    (question_speech : List String) : Except PyErr String :=
  runGen gen (intent_req question_speech)

/-- The request issued by get_inference_about_person. -/
def inference_req (question_speech : List String) : GenRequest :=
  { input_text := joinLines (example_1_inferences ++ ["\nEXAMPLE 2:"] ++ question_speech ++
      question_inference ++ ["Answer: This person is:"]),
    max_length := 2000, temperature := PERSON_INFERENCE_TEMPERATURE }

/-- Pipeline step 2, person inference. -/
def get_inference_about_person (gen : GenRequest → Option String)
    (question_speech : List String) : Except PyErr String :=
  runGen gen (inference_req question_speech)

def build_state_line_v1 : String :=
  "Infer some more state about the preceding speaker, do it in JSON. Add to the current state already inferred"

def build_state_question_v1 : String :=
  "Q: What other qualities about the conversation can we infer?"

def build_state_line_v2 : String :=
  "Infer some more state about the preceding speaker. \"Person\" is speaking to a bot. Youre the bot."

def build_state_question_v2 : String :=
  "Q: What other qualities about the person we can infer?"

/-- The answer line shared verbatim by both textual definitions of
build_state. -/
def answer_line (world_state : String) : String :=
  "So we already know that" ++ world_state ++
    " An additional thing we can infer from the conversation is that"

/-- Prompt of the first textual definition of build_state (the one later
shadowed). -/
def build_state_prompt_v1 (world_state : String) (conversation : List String) : String :=
  joinLines (conversation ++ [build_state_line_v1] ++ [build_state_question_v1] ++
    [answer_line world_state])

/-- Prompt of the second textual definition of build_state, the one in
effect after shadowing. -/
def build_state_prompt_v2 (world_state : String) (conversation : List String) : String :=
  joinLines (conversation ++ [build_state_line_v2] ++ [build_state_question_v2] ++
    [answer_line world_state])

/-- The request issued by the effective build_state. -/
def build_state_req (world_state : String) (conversation : List String) : GenRequest :=
  { input_text := build_state_prompt_v2 world_state conversation,
    max_length := 2000, temperature := STATE_TEMPERATURE }

/-- Pipeline step 3, world-state update (the second, shadowing textual
definition). -/
def build_state (gen : GenRequest → Option String)
    (world_state : String) (conversation : List String) : Except PyErr String :=
  runGen gen (build_state_req world_state conversation)

/-- The request issued by get_thoughts_2. -/
def thoughts2_req (conversation : List String) : GenRequest :=
  { input_text := joinLines (["Person" ++ sq ++ "s speech"] ++ conversation ++
      ["Random thoughts about the speech, that you, a sentient robot, could have:"]),
    max_length := 50, temperature := 1 }

/-- Pipeline step 4, thought generation. -/
def get_thoughts_2 (gen : GenRequest → Option String)
    (conversation : List String) : Except PyErr String :=
  runGen gen (thoughts2_req conversation)

def pre_convo : List String :=
  ["I" ++ sq ++ "m a helpful, happy, sentient robot. This is the conversation of a human that they" ++ sq ++ "re having with me"]

def pre_thought : List String :=
  ["These are my thoughts about the preceding lines. I should use thoughts, when I generate a reasonable response."]

def response_answer : List String := ["My response to the person should be:"]

/-- The request issued by generate_response, with the parameter names of
the source: the first parameter is placed in the thoughts slot and the
second in the conversation slot. -/
def generate_response_req (thoughts conversation : List String) : GenRequest :=
  { input_text := joinLines (pre_convo ++ conversation ++ pre_thought ++ thoughts ++
      response_answer),
    max_length := 2000, temperature := PERSON_INFERENCE_TEMPERATURE }

/-- Pipeline step 5, response generation. -/
def generate_response (gen : GenRequest → Option String)
    (thoughts conversation : List String) : Except PyErr String :=
  runGen gen (generate_response_req thoughts conversation)

/-- The five string fields of the response_data record returned by
generate_thots. -/
structure ThotsResult where
  intent : String
  person_is : String
  extra_state : String
  thoughts : String
  response : String
deriving DecidableEq

/-- The world_state sentence generate_thots synthesizes from the outputs
of steps 1 and 2. -/
def world_state_of (person_intent person_is : String) : String :=
  "this person is a " ++ person_is ++ " and their intent is " ++ person_intent ++ "."

/-- The intent field, a fixed lead concatenated with the lowercased and
stripped step-1 output. -/
def intent_pretty_of (person_intent : String) : String :=
  "this person" ++ sq ++ "s intent is " ++ pyStrip (pyLower person_intent)

/-- The person_is field, a fixed lead concatenated with the lowercased and
stripped step-2 output. -/
def person_is_pretty_of (person_is : String) : String :=
  "this person is a " ++ pyStrip (pyLower person_is)

/-- The generate_thots pipeline: five sequential generation calls, each
threading earlier outputs into later prompts. The first exception aborts
the run. Alongside the result, the list of generation requests actually
issued is returned in call order. -/
def generate_thots (gen : GenRequest → Option String) (question_speech : List String) :
    Except PyErr ThotsResult × List GenRequest :=
  match get_persons_intent gen question_speech with
  | .error e => (.error e, [intent_req question_speech])
  | .ok person_intent =>
    match get_inference_about_person gen question_speech with
    | .error e => (.error e, [intent_req question_speech, inference_req question_speech])
    | .ok person_is =>
      match build_state gen (world_state_of person_intent person_is) question_speech with
      | .error e => (.error e,
          [intent_req question_speech, inference_req question_speech,
           build_state_req (world_state_of person_intent person_is) question_speech])
      | .ok new_state =>
        let intent_pretty := intent_pretty_of person_intent
        let person_is_pretty := person_is_pretty_of person_is
        let extra_state_pretty := pyStrip (pyLower new_state)
        match get_thoughts_2 gen question_speech with
        | .error e => (.error e,
            [intent_req question_speech, inference_req question_speech,
             build_state_req (world_state_of person_intent person_is) question_speech,
             thoughts2_req question_speech])
        | .ok thought_raw =>
          let thoughts := pyStrip (pyLower thought_raw)
          match generate_response gen question_speech
              [intent_pretty, person_is_pretty, extra_state_pretty, thoughts] with
          | .error e => (.error e,
              [intent_req question_speech, inference_req question_speech,
               build_state_req (world_state_of person_intent person_is) question_speech,
               thoughts2_req question_speech,
               generate_response_req question_speech
                 [intent_pretty, person_is_pretty, extra_state_pretty, thoughts]])
          | .ok response =>
            (.ok { intent := intent_pretty, person_is := person_is_pretty,
                   extra_state := extra_state_pretty, thoughts := thoughts,
                   response := response },
             [intent_req question_speech, inference_req question_speech,
              build_state_req (world_state_of person_intent person_is) question_speech,
              thoughts2_req question_speech,
              generate_response_req question_speech
                [intent_pretty, person_is_pretty, extra_state_pretty, thoughts]])

/-- A deterministic mocked generation service whose decoded output is
always the padded TEST string. -/
def echoGen : GenRequest → Option String := fun _ => some "<pad> TEST </s>"

/-- A generation service that always fails upstream. -/
def noGen : GenRequest → Option String := fun _ => none

/-- The concrete one-line transcript of the end-to-end scenario. -/
def spaceTs : List String := ["person: I love space travel."]

end Scribepod

namespace Scribepod

theorem splitLF_no_occur (fuel : Nat) (sep : List Char) :
    ∀ cs : List Char, containsSub sep cs = false → splitLF sep fuel cs = [cs] := by
  induction fuel with
  | zero => intro cs _; cases cs <;> rfl
  | succ fuel ih =>
    intro cs h
    cases cs with
    | nil => rfl
    | cons c cs =>
      rw [containsSub] at h
      simp only [Bool.or_eq_false_iff] at h
      have hp : (sep.isPrefixOf (c :: cs) && !sep.isEmpty) = false := by
        simp [h.1]
      simp [splitLF, hp, ih cs h.2]

theorem pySplit_no_occur (s sep : String) (h : containsSubStr s sep = false) :
    pySplit s sep = [s] := by
  rw [pySplit, splitLF_no_occur _ _ _ h]
  rfl

/-- C1 (amended): for every raw generated string that contains no padding
marker, the output parser fails with the raw index-out-of-range fault of
the source expression; it does not report the distinct malformed-output
error the specification asks for. -/
theorem parse_no_pad_raises_index_error (raw : String)
    (h : containsSubStr raw "<pad>" = false) :
    parseDecoded raw = .error .indexError := by
  simp [parseDecoded, pySplit_no_occur raw "<pad>" h]

/-- C1 witness: the amended theorem applied at the concrete marker-free
raw string TEST. -/
theorem parse_no_pad_raises_index_error_witness :
    containsSubStr "TEST" "<pad>" = false ∧
      parseDecoded "TEST" = .error .indexError :=
  ⟨by decide, parse_no_pad_raises_index_error "TEST" (by decide)⟩

/-- C1 counterexample: on the marker-free raw string TEST the parser
propagates the index-out-of-range fault, which is not the distinct
malformed-output error the claim requires it to report. -/
theorem parse_no_pad_counterexample :
    containsSubStr "TEST" "<pad>" = false ∧
      parseDecoded "TEST" = .error .indexError ∧
      (Except.error PyErr.indexError : Except PyErr String) ≠
        .error .malformedOutput := by
  refine ⟨by decide, rfl, fun h => ?_⟩
  simp at h

/-- C4 (amended): the parser applied to the given raw string splits on the
padding marker, takes the second element, splits on the closing marker and
takes the first element, returning the segment with its surrounding
whitespace preserved: the result keeps the spaces around hello world, and
no trim is applied. -/
theorem parse_roundtrip_keeps_spaces :
    parseDecoded "<pad> hello world </s> extra" = .ok " hello world " := rfl

/-- C4 counterexample: the parse result keeps the surrounding spaces, so
it differs from the trimmed string the claim announces. -/
theorem parse_roundtrip_counterexample :
    parseDecoded "<pad> hello world </s> extra" = .ok " hello world " ∧
      (" hello world " : String) ≠ "hello world" :=
  ⟨rfl, by decide⟩

/-- C5: the prompt builder joins the fragments in their given order with a
single newline separator and nothing else, as witnessed by its complete
recursive characterization and the concrete three-fragment case, and it
returns equal strings on equal fragment lists. -/
theorem joinLines_spec :
    joinLines ["A", "B", "C"] = "A\nB\nC" ∧
      joinLines ([] : List String) = "" ∧
      (∀ x : String, joinLines [x] = x) ∧
      (∀ (x y : String) (t : List String),
        joinLines (x :: y :: t) = x ++ "\n" ++ joinLines (y :: t)) ∧
      (∀ l₁ l₂ : List String, l₁ = l₂ → joinLines l₁ = joinLines l₂) :=
  ⟨rfl, rfl, fun _ => rfl, fun _ _ _ => rfl, fun _ _ h => by rw [h]⟩

/-- C5 witness: the determinism clause applied at a concrete fragment
list. -/
theorem joinLines_spec_witness :
    (["A", "B"] : List String) = ["A", "B"] ∧
      joinLines ["A", "B"] = joinLines ["A", "B"] :=
  ⟨rfl, joinLines_spec.2.2.2.2 ["A", "B"] ["A", "B"] rfl⟩

theorem joinLines_length :
    ∀ l : List String, (joinLines l).length = (l.map String.length).sum + (l.length - 1)
  | [] => by simp [joinLines]
  | [x] => by simp [joinLines]
  | x :: y :: t => by
    rw [joinLines, String.length_append, String.length_append,
      joinLines_length (y :: t)]
    have h1 : ("\n" : String).length = 1 := rfl
    simp only [h1, List.map_cons, List.sum_cons, List.length_cons]
    omega

/-- C9: the two textual definitions of build_state are not extensionally
equal: on every input they build different prompt strings, and the
pipeline world-state request uses the second, shadowing definition. -/
theorem build_state_versions_differ :
    (∀ ws conv, (build_state_prompt_v1 ws conv == build_state_prompt_v2 ws conv) = false) ∧
      ∀ ws conv, (build_state_req ws conv).input_text = build_state_prompt_v2 ws conv := by
  constructor
  · intro ws conv
    rw [beq_eq_false_iff_ne]
    intro heq
    have h := congrArg String.length heq
    rw [build_state_prompt_v1, build_state_prompt_v2, joinLines_length, joinLines_length] at h
    have hne : build_state_line_v1.length + build_state_question_v1.length ≠
        build_state_line_v2.length + build_state_question_v2.length := by decide
    simp [answer_line, String.length_append] at h
    omega
  · intro ws conv; rfl

end Scribepod

namespace Scribepod

/-- The five requests a fully successful run issues, in call order, as a
function of the transcript and the parsed outputs of steps 1 to 4. -/
def full_trace (ts : List String) (v1 v2 v3 v4 : String) : List GenRequest :=
  [intent_req ts, inference_req ts, build_state_req (world_state_of v1 v2) ts,
   thoughts2_req ts,
   generate_response_req ts
     [intent_pretty_of v1, person_is_pretty_of v2, pyStrip (pyLower v3), pyStrip (pyLower v4)]]

/-- Case analysis of one pipeline run: either some step fails and the run
stops there with the requests issued so far, or all five steps succeed. -/
theorem generate_thots_shape (gen : GenRequest → Option String) (ts : List String) :
    (∃ e, runGen gen (intent_req ts) = .error e ∧
      generate_thots gen ts = (.error e, [intent_req ts])) ∨
    ∃ v1, runGen gen (intent_req ts) = .ok v1 ∧
      ((∃ e, runGen gen (inference_req ts) = .error e ∧
        generate_thots gen ts = (.error e, [intent_req ts, inference_req ts])) ∨
      ∃ v2, runGen gen (inference_req ts) = .ok v2 ∧
        ((∃ e, runGen gen (build_state_req (world_state_of v1 v2) ts) = .error e ∧
          generate_thots gen ts = (.error e,
            [intent_req ts, inference_req ts,
             build_state_req (world_state_of v1 v2) ts])) ∨
        ∃ v3, runGen gen (build_state_req (world_state_of v1 v2) ts) = .ok v3 ∧
          ((∃ e, runGen gen (thoughts2_req ts) = .error e ∧
            generate_thots gen ts = (.error e,
              [intent_req ts, inference_req ts,
               build_state_req (world_state_of v1 v2) ts, thoughts2_req ts])) ∨
          ∃ v4, runGen gen (thoughts2_req ts) = .ok v4 ∧
            ((∃ e, runGen gen (generate_response_req ts
                [intent_pretty_of v1, person_is_pretty_of v2, pyStrip (pyLower v3),
                 pyStrip (pyLower v4)]) = .error e ∧
              generate_thots gen ts = (.error e, full_trace ts v1 v2 v3 v4)) ∨
            ∃ v5, runGen gen (generate_response_req ts
                [intent_pretty_of v1, person_is_pretty_of v2, pyStrip (pyLower v3),
                 pyStrip (pyLower v4)]) = .ok v5 ∧
              generate_thots gen ts =
                (.ok { intent := intent_pretty_of v1, person_is := person_is_pretty_of v2,
                       extra_state := pyStrip (pyLower v3), thoughts := pyStrip (pyLower v4),
                       response := v5 },
                 full_trace ts v1 v2 v3 v4))))) := by
  cases h1 : runGen gen (intent_req ts) with
  | error e1 =>
    exact Or.inl ⟨e1, rfl, by simp [generate_thots, get_persons_intent, h1]⟩
  | ok v1 =>
    refine Or.inr ⟨v1, rfl, ?_⟩
    cases h2 : runGen gen (inference_req ts) with
    | error e2 =>
      exact Or.inl ⟨e2, rfl, by
        simp [generate_thots, get_persons_intent, get_inference_about_person, h1, h2]⟩
    | ok v2 =>
      refine Or.inr ⟨v2, rfl, ?_⟩
      cases h3 : runGen gen (build_state_req (world_state_of v1 v2) ts) with
      | error e3 =>
        exact Or.inl ⟨e3, rfl, by
          simp [generate_thots, get_persons_intent, get_inference_about_person,
            build_state, h1, h2, h3]⟩
      | ok v3 =>
        refine Or.inr ⟨v3, rfl, ?_⟩
        cases h4 : runGen gen (thoughts2_req ts) with
        | error e4 =>
          exact Or.inl ⟨e4, rfl, by
            simp [generate_thots, get_persons_intent, get_inference_about_person,
              build_state, get_thoughts_2, h1, h2, h3, h4]⟩
        | ok v4 =>
          refine Or.inr ⟨v4, rfl, ?_⟩
          cases h5 : runGen gen (generate_response_req ts
              [intent_pretty_of v1, person_is_pretty_of v2, pyStrip (pyLower v3),
               pyStrip (pyLower v4)]) with
          | error e5 =>
            exact Or.inl ⟨e5, rfl, by
              simp [generate_thots, get_persons_intent, get_inference_about_person,
                build_state, get_thoughts_2, generate_response, full_trace,
                h1, h2, h3, h4, h5]⟩
          | ok v5 =>
            exact Or.inr ⟨v5, rfl, by
              simp [generate_thots, get_persons_intent, get_inference_about_person,
                build_state, get_thoughts_2, generate_response, full_trace,
                h1, h2, h3, h4, h5]⟩

/-- Every issued trace is an initial segment of the five-step request
list. -/
theorem generate_thots_trace_take (gen : GenRequest → Option String) (ts : List String) :
    ∃ v1 v2 v3 v4 k, (generate_thots gen ts).2 = (full_trace ts v1 v2 v3 v4).take k := by
  rcases generate_thots_shape gen ts with ⟨e, -, heq⟩ | ⟨v1, -, hrest⟩
  · exact ⟨"", "", "", "", 1, by rw [heq]; rfl⟩
  · rcases hrest with ⟨e, -, heq⟩ | ⟨v2, -, hrest⟩
    · exact ⟨v1, "", "", "", 2, by rw [heq]; rfl⟩
    · rcases hrest with ⟨e, -, heq⟩ | ⟨v3, -, hrest⟩
      · exact ⟨v1, v2, "", "", 3, by rw [heq]; rfl⟩
      · rcases hrest with ⟨e, -, heq⟩ | ⟨v4, -, hrest⟩
        · exact ⟨v1, v2, v3, "", 4, by rw [heq]; rfl⟩
        · rcases hrest with ⟨e, -, heq⟩ | ⟨v5, -, heq⟩
          · exact ⟨v1, v2, v3, v4, 5, by rw [heq]; rfl⟩
          · exact ⟨v1, v2, v3, v4, 5, by rw [heq]; rfl⟩

end Scribepod

namespace Scribepod

/-- C6: whenever the pipeline issues a third generation call, the first two
calls already issued are the intent-inference and person-inference
requests, and the third is the world-state request. -/
theorem step3_preceded_by_two_calls (gen : GenRequest → Option String)
    (ts : List String) (h : 2 < (generate_thots gen ts).2.length) :
    (generate_thots gen ts).2[0]? = some (intent_req ts) ∧
      (generate_thots gen ts).2[1]? = some (inference_req ts) ∧
      ∃ ws, (generate_thots gen ts).2[2]? = some (build_state_req ws ts) := by
  rcases generate_thots_shape gen ts with ⟨e, -, heq⟩ | ⟨v1, -, hrest⟩
  · rw [heq] at h; simp at h
  · rcases hrest with ⟨e, -, heq⟩ | ⟨v2, -, hrest⟩
    · rw [heq] at h; simp at h
    · rcases hrest with ⟨e, -, heq⟩ | ⟨v3, -, hrest⟩
      · rw [heq]; exact ⟨rfl, rfl, world_state_of v1 v2, rfl⟩
      · rcases hrest with ⟨e, -, heq⟩ | ⟨v4, -, hrest⟩
        · rw [heq]; exact ⟨rfl, rfl, world_state_of v1 v2, rfl⟩
        · rcases hrest with ⟨e, -, heq⟩ | ⟨v5, -, heq⟩ <;>
            (rw [heq]; exact ⟨rfl, rfl, world_state_of v1 v2, rfl⟩)

/-- C6 witness: with the echoing mocked generation service and the concrete
transcript, the third call is issued and the ordering conclusion holds. -/
theorem step3_preceded_by_two_calls_witness :
    2 < (generate_thots echoGen spaceTs).2.length ∧
      ((generate_thots echoGen spaceTs).2[0]? = some (intent_req spaceTs) ∧
        (generate_thots echoGen spaceTs).2[1]? = some (inference_req spaceTs) ∧
        ∃ ws, (generate_thots echoGen spaceTs).2[2]? = some (build_state_req ws spaceTs)) :=
  ⟨by decide, step3_preceded_by_two_calls echoGen spaceTs (by decide)⟩

/-- C7: when the pipeline result is an error, the failing call is the last
request issued, every request issued before it succeeded, and at most five
requests (one per step) are ever issued; the error carries no partial
result record. -/
theorem pipeline_fail_fast (gen : GenRequest → Option String) (ts : List String)
    (e : PyErr) (h : (generate_thots gen ts).1 = .error e) :
    (generate_thots gen ts).2.getLast?.map (runGen gen) = some (.error e) ∧
      (∀ req ∈ (generate_thots gen ts).2.dropLast, ∃ v, runGen gen req = .ok v) ∧
      (generate_thots gen ts).2.length ≤ 5 := by
  rcases generate_thots_shape gen ts with ⟨e1, h1, heq⟩ | ⟨v1, h1, hrest⟩
  · rw [heq] at h ⊢
    simp only [Except.error.injEq] at h
    subst h
    refine ⟨by simp [List.getLast?, h1], ?_, by simp⟩
    intro req hreq
    simp at hreq
  · rcases hrest with ⟨e2, h2, heq⟩ | ⟨v2, h2, hrest⟩
    · rw [heq] at h ⊢
      simp only [Except.error.injEq] at h
      subst h
      refine ⟨by simp [List.getLast?, List.getLastD, h2], ?_, by simp⟩
      intro req hreq
      simp [List.dropLast] at hreq
      subst hreq
      exact ⟨v1, h1⟩
    · rcases hrest with ⟨e3, h3, heq⟩ | ⟨v3, h3, hrest⟩
      · rw [heq] at h ⊢
        simp only [Except.error.injEq] at h
        subst h
        refine ⟨by simp [List.getLast?, List.getLastD, h3], ?_, by simp⟩
        intro req hreq
        simp [List.dropLast] at hreq
        rcases hreq with rfl | rfl
        · exact ⟨v1, h1⟩
        · exact ⟨v2, h2⟩
      · rcases hrest with ⟨e4, h4, heq⟩ | ⟨v4, h4, hrest⟩
        · rw [heq] at h ⊢
          simp only [Except.error.injEq] at h
          subst h
          refine ⟨by simp [List.getLast?, List.getLastD, h4], ?_, by simp⟩
          intro req hreq
          simp [List.dropLast] at hreq
          rcases hreq with rfl | rfl | rfl
          · exact ⟨v1, h1⟩
          · exact ⟨v2, h2⟩
          · exact ⟨v3, h3⟩
        · rcases hrest with ⟨e5, h5, heq⟩ | ⟨v5, h5, heq⟩
          · rw [heq] at h ⊢
            simp only [Except.error.injEq] at h
            subst h
            refine ⟨by simp [full_trace, List.getLast?, List.getLastD, h5], ?_,
              by simp [full_trace]⟩
            intro req hreq
            simp [full_trace, List.dropLast] at hreq
            rcases hreq with rfl | rfl | rfl | rfl
            · exact ⟨v1, h1⟩
            · exact ⟨v2, h2⟩
            · exact ⟨v3, h3⟩
            · exact ⟨v4, h4⟩
          · rw [heq] at h
            simp at h

/-- C7 witness: with the always-failing generation service the first step
fails, the result is the upstream error, and the fail-fast conclusions
hold. -/
theorem pipeline_fail_fast_witness :
    (generate_thots noGen spaceTs).1 = .error .upstreamError ∧
      ((generate_thots noGen spaceTs).2.getLast?.map (runGen noGen) =
          some (.error .upstreamError) ∧
        (∀ req ∈ (generate_thots noGen spaceTs).2.dropLast,
          ∃ v, runGen noGen req = .ok v) ∧
        (generate_thots noGen spaceTs).2.length ≤ 5) :=
  ⟨rfl, pipeline_fail_fast noGen spaceTs .upstreamError rfl⟩

end Scribepod

namespace Scribepod

theorem rat_one_scientific : (1.0 : ℚ) = 1 := by norm_num

theorem full_trace_params (ts : List String) (v1 v2 v3 v4 : String) :
    ∀ (i : Nat) (req : GenRequest),
      (full_trace ts v1 v2 v3 v4)[i]? = some req →
      req.temperature = 1 ∧ req.max_length = (if i = 3 then 50 else 2000) := by
  intro i req h
  rcases i with _ | _ | _ | _ | _ | i
  · simp [full_trace] at h
    subst h
    exact ⟨rat_one_scientific, rfl⟩
  · simp [full_trace] at h
    subst h
    exact ⟨rat_one_scientific, rfl⟩
  · simp [full_trace] at h
    subst h
    exact ⟨rat_one_scientific, rfl⟩
  · simp [full_trace] at h
    subst h
    exact ⟨rfl, rfl⟩
  · simp [full_trace] at h
    subst h
    exact ⟨rat_one_scientific, rfl⟩
  · simp [full_trace] at h

/-- C8: every generation call the pipeline issues uses temperature one, and
the call at position i uses max length 50 exactly when it is the fourth
call (the thought-generation step, index 3) and 2000 otherwise. -/
theorem generation_call_params (gen : GenRequest → Option String) (ts : List String)
    (i : Nat) (req : GenRequest) (h : (generate_thots gen ts).2[i]? = some req) :
    req.temperature = 1 ∧ req.max_length = (if i = 3 then 50 else 2000) := by
  obtain ⟨v1, v2, v3, v4, k, htr⟩ := generate_thots_trace_take gen ts
  rw [htr] at h
  rcases Nat.lt_or_ge i k with hik | hik
  · rw [List.getElem?_take_of_lt hik] at h
    exact full_trace_params ts v1 v2 v3 v4 i req h
  · exfalso
    have hlen : (List.take k (full_trace ts v1 v2 v3 v4)).length ≤ i :=
      le_trans (le_trans (List.length_take_le k _) hik)
        (le_refl i)
    rw [List.getElem?_eq_none hlen] at h
    exact Option.noConfusion h

/-- C8 witness: in the mocked run the fourth call is the thought request,
with temperature one and max length 50. -/
theorem generation_call_params_witness :
    (generate_thots echoGen spaceTs).2[3]? = some (thoughts2_req spaceTs) ∧
      ((thoughts2_req spaceTs).temperature = 1 ∧
        (thoughts2_req spaceTs).max_length = (if 3 = 3 then 50 else 2000)) :=
  ⟨rfl, generation_call_params echoGen spaceTs 3 (thoughts2_req spaceTs) rfl⟩

end Scribepod

namespace Scribepod

/-- The record the pipeline actually produces in the mocked end-to-end
scenario. -/
def mockRecord : ThotsResult :=
  { intent := "this person" ++ sq ++ "s intent is test",
    person_is := "this person is a test",
    extra_state := "test",
    thoughts := "test",
    response := " TEST " }

/-- C2 counterexample: in the mocked end-to-end scenario the pipeline
returns the record whose intent field is the prefixed sentence, not the
bare string test, so the five fields are not all equal to test. -/
theorem pipeline_mock_not_all_test :
    (generate_thots echoGen spaceTs).1 = .ok mockRecord ∧
      mockRecord.intent ≠ "test" ∧ mockRecord.response ≠ "test" :=
  ⟨rfl, by decide, by decide⟩

/-- C2 (amended): the mocked end-to-end scenario yields extra_state and
thoughts equal to test, intent and person_is equal to the prefixed
sentences, and response equal to the unnormalized parsed segment. -/
theorem pipeline_mock_eval :
    (generate_thots echoGen spaceTs).1 = .ok mockRecord ∧
      mockRecord.extra_state = "test" ∧
      mockRecord.thoughts = "test" ∧
      mockRecord.intent = "this person" ++ sq ++ "s intent is test" ∧
      mockRecord.person_is = "this person is a test" ∧
      mockRecord.response = " TEST " :=
  ⟨rfl, rfl, rfl, rfl, rfl, rfl⟩

/-- C3 (code evaluation): in the mocked run, the fifth request joins the
conversation framing line, then the four prior outputs, then the thoughts
framing line, then the transcript, then the answer line: the transcript
sits in the thoughts position and the prior outputs in the conversation
position, because generate_thots passes its arguments to generate_response
in swapped order relative to that function's parameter names. -/
theorem response_prompt_transcript_in_thoughts_slot :
    ((generate_thots echoGen spaceTs).2[4]?).map GenRequest.input_text =
      some (joinLines (pre_convo ++
        ["this person" ++ sq ++ "s intent is test", "this person is a test", "test", "test"] ++
        pre_thought ++ spaceTs ++ response_answer)) :=
  rfl

/-- C10: on any successful run, the extra_state and thoughts fields are the
lowercased and stripped step outputs, intent and person_is embed the
lowercased and stripped step outputs after fixed lowercase leads, and the
response field is the raw parsed step-5 output with no lowercasing and no
stripping applied. -/
theorem result_field_normalization (gen : GenRequest → Option String)
    (ts : List String) (r : ThotsResult)
    (h : (generate_thots gen ts).1 = .ok r) :
    ∃ v1 v2 v3 v4 v5,
      runGen gen (intent_req ts) = .ok v1 ∧
      runGen gen (inference_req ts) = .ok v2 ∧
      runGen gen (build_state_req (world_state_of v1 v2) ts) = .ok v3 ∧
      runGen gen (thoughts2_req ts) = .ok v4 ∧
      runGen gen (generate_response_req ts
        [intent_pretty_of v1, person_is_pretty_of v2, pyStrip (pyLower v3),
         pyStrip (pyLower v4)]) = .ok v5 ∧
      r.intent = "this person" ++ sq ++ "s intent is " ++ pyStrip (pyLower v1) ∧
      r.person_is = "this person is a " ++ pyStrip (pyLower v2) ∧
      r.extra_state = pyStrip (pyLower v3) ∧
      r.thoughts = pyStrip (pyLower v4) ∧
      r.response = v5 := by
  rcases generate_thots_shape gen ts with ⟨e, h1, heq⟩ | ⟨v1, h1, hrest⟩
  · rw [heq] at h; simp at h
  · rcases hrest with ⟨e, h2, heq⟩ | ⟨v2, h2, hrest⟩
    · rw [heq] at h; simp at h
    · rcases hrest with ⟨e, h3, heq⟩ | ⟨v3, h3, hrest⟩
      · rw [heq] at h; simp at h
      · rcases hrest with ⟨e, h4, heq⟩ | ⟨v4, h4, hrest⟩
        · rw [heq] at h; simp at h
        · rcases hrest with ⟨e, h5, heq⟩ | ⟨v5, h5, heq⟩
          · rw [heq] at h; simp at h
          · rw [heq] at h
            simp only [Except.ok.injEq] at h
            subst h
            exact ⟨v1, v2, v3, v4, v5, h1, h2, h3, h4, h5,
              by simp [intent_pretty_of], by simp [person_is_pretty_of], rfl, rfl, rfl⟩

/-- C10 witness: the normalization theorem applied to the mocked run. -/
theorem result_field_normalization_witness :
    (generate_thots echoGen spaceTs).1 = .ok mockRecord ∧
      (∃ v1 v2 v3 v4 v5,
        runGen echoGen (intent_req spaceTs) = .ok v1 ∧
        runGen echoGen (inference_req spaceTs) = .ok v2 ∧
        runGen echoGen (build_state_req (world_state_of v1 v2) spaceTs) = .ok v3 ∧
        runGen echoGen (thoughts2_req spaceTs) = .ok v4 ∧
        runGen echoGen (generate_response_req spaceTs
          [intent_pretty_of v1, person_is_pretty_of v2, pyStrip (pyLower v3),
           pyStrip (pyLower v4)]) = .ok v5 ∧
        mockRecord.intent = "this person" ++ sq ++ "s intent is " ++ pyStrip (pyLower v1) ∧
        mockRecord.person_is = "this person is a " ++ pyStrip (pyLower v2) ∧
        mockRecord.extra_state = pyStrip (pyLower v3) ∧
        mockRecord.thoughts = pyStrip (pyLower v4) ∧
        mockRecord.response = v5) :=
  ⟨rfl, result_field_normalization echoGen spaceTs mockRecord rfl⟩

end Scribepod
